import Mathlib

/-!
Verification of the rust-docker-overlay orchestrator against its design
specification.  The Rust sources are shallowly embedded: strings are
`List Char` (the code only manipulates ASCII, where Rust byte indices and
char indices coincide), `HashMap` lookups are association-list lookups,
fallible code returns `Except`/`Option`, and filesystem side effects are
explicit state passing over a flat path-to-node map.
-/

namespace RustDockerOverlay

/-- Model of Rust `str::split_once(c)`: splits at the first occurrence of
`c`, returning the parts before and after it, or `none` when `c` does not
occur (src/cli.rs line 51, src/docker_helper.rs line 89). -/
def splitOnceCh (c : Char) : List Char → Option (List Char × List Char)
  | [] => none
  | x :: rest =>
    if x = c then some ([], rest)
    else
      match splitOnceCh c rest with
      | some (a, b) => some (x :: a, b)
      | none => none

/-- Model of Rust `str::rsplit_once(c)`: splits at the LAST occurrence of
`c`.  This is the spec's wording ("split at the last `:`"); the source uses
`split_once`.  Kept for comparing the spec's reading with the code. -/
def splitLastCh (c : Char) : List Char → Option (List Char × List Char)
  | [] => none
  | x :: rest =>
    match splitLastCh c rest with
    | some (a, b) => some (x :: a, b)
    | none => if x = c then some ([], rest) else none

/-- Model of Rust `str::replace(from, to)` for one-character patterns:
replaces every occurrence of `a` by `b`. -/
def replaceCh (a b : Char) (s : List Char) : List Char :=
  s.map (fun c => if c = a then b else c)

/-- Model of Rust `str::find(c)`: index of the first occurrence of `c`
(char index; equal to Rust's byte index on ASCII input). -/
def findCh (c : Char) : List Char → Option Nat
  | [] => none
  | x :: rest =>
    if x = c then some 0
    else (findCh c rest).map (· + 1)

/-- Model of the Rust slice `&s[a..b]`: the characters of `s` from index
`a` (inclusive) to `b` (exclusive).  Rust panics when `a > b` or
`b > s.len()`; callers of this model only use it with `a ≤ b ≤ s.length`
and the panic case is handled at the call site. -/
def sliceCh (s : List Char) (a b : Nat) : List Char :=
  (s.take b).drop a

/-- Numeric value of a list of decimal digit characters, most significant
first, as Rust's integer parsing accumulates it. -/
def digitsVal (s : List Char) : Nat :=
  s.foldl (fun acc c => acc * 10 + (c.toNat - 48)) 0

/-- Model of Rust `str::parse::<usize>()` on a 64-bit target: an optional
leading `+`, then one or more ASCII digits, failing on the empty string, a
non-digit, or overflow past `2^64 - 1` (the checked accumulation in Rust
fails exactly when the full value exceeds `usize::MAX`, since the
accumulator grows monotonically). -/
def parseUsize (s : List Char) : Option Nat :=
  let digits := if s.head? = some '+' then s.tail else s
  if digits = [] then none
  else if digits.all Char.isDigit then
    if digitsVal digits < 2 ^ 64 then some (digitsVal digits) else none
  else none

/-- Embedding of `Args::image_cache_filename` (src/cli.rs lines 48-55):
`self.image.split_once(":")` defaulting to `(image, "latest")`, slashes of
the name replaced by underscores, formatted as `"{name}_{tag}.tar"`. -/
def image_cache_filename (image : List Char) : List Char :=
  let p := (splitOnceCh ':' image).getD (image, "latest".data)
  replaceCh '/' '_' p.1 ++ '_' :: p.2 ++ ".tar".data

/-- Formalisation of the SPEC's wording of the cache filename law (spec.md
section 8, law 1, and the C1 claim): the reference is split at its LAST
`:`; compared against `image_cache_filename`, which embeds the code. -/
def cache_filename_spec_last (image : List Char) : List Char :=
  let p := (splitLastCh ':' image).getD (image, "latest".data)
  replaceCh '/' '_' p.1 ++ '_' :: p.2 ++ ".tar".data

/-- Embedding of the pull-path split in `DockerHelper::export_overlay_image`
(src/docker_helper.rs line 89): `image.split_once(":").unwrap_or((image,
"latest"))`; the result is passed to `create_image(name, tag)`. -/
def pull_split (image : List Char) : List Char × List Char :=
  (splitOnceCh ':' image).getD (image, "latest".data)

/-- Formalisation of the SPEC's wording of the pull split (the C4 claim):
split at the LAST `:`, defaulting the tag to `latest`. -/
def pull_split_spec_last (image : List Char) : List Char × List Char :=
  (splitLastCh ':' image).getD (image, "latest".data)

/-- Embedding of `parse_namespace_content` (src/main.rs lines 54-64):
`content.find('[')` (error when absent), `content.find(']')` (error when
absent), then parse `&content[start+1..end]` as `usize`.  When the first
`]` precedes the first `[`, the Rust slice `&content[start+1..end]` panics;
that case is modelled as a distinguished error string. -/
def parse_namespace_content (content : List Char) : Except (List Char) Nat :=
  match findCh '[' content with
  | none => .error "invalid namespace start content".data
  | some start =>
    match findCh ']' content with
    | none => .error "invalid namespace end content".data
    | some e =>
      if start + 1 ≤ e then
        match parseUsize (sliceCh content (start + 1) e) with
        | some v => .ok v
        | none => .error "invalid digit found in string".data
      else .error "panic: slice index starts after it ends".data

/-- Association-list lookup, modelling `HashMap::get` on the maps the code
builds (first binding of the key wins). -/
def lookupAssoc {α : Type} (m : List (List Char × α)) (k : List Char) : Option α :=
  match m with
  | [] => none
  | (k', v) :: rest => if k' = k then some v else lookupAssoc rest k

/-- State block of the daemon's inspect response, as the code reads it:
`State.Running` and `State.Pid` (an `i64` in the wire type, cast with
`as u64` at src/docker_helper.rs line 67). -/
structure DockerState where
  Running : Bool
  Pid : Int

/-- Inspect response fields consumed by `get_container_info`:
`State`, `Driver`, and `GraphDriver.Data` (a string map). -/
structure DockerContainerResponse where
  State : DockerState
  Driver : List Char
  GraphDriverData : List (List Char × List Char)

/-- Result record of `get_container_info` (src/docker_helper.rs
lines 34-38): host PID of the container init and the overlay2 merged
directory. -/
structure ContainerInfo where
  pid : Nat
  merged_dir : List Char
deriving DecidableEq, Repr

/-- Rust `as u64` applied to an `i64`: two's-complement reinterpretation,
i.e. the value modulo `2^64`. -/
def intAsU64 (p : Int) : Nat :=
  (p % (2 : Int) ^ 64).toNat

/-- Embedding of `DockerHelper::get_container_info` (src/docker_helper.rs
lines 50-78) downstream of the daemon call: reject a non-running container,
then a non-overlay2 driver (error text naming the driver), then a missing
`MergedDir` key; otherwise return the PID (cast `as u64`) and the merged
directory. -/
def get_container_info (r : DockerContainerResponse) : Except (List Char) ContainerInfo :=
  if !r.State.Running then
    .error "container is not running".data
  else if r.Driver ≠ "overlay2".data then
    .error ("only overlay2 driver is supported, found: ".data ++ r.Driver)
  else
    match lookupAssoc r.GraphDriverData "MergedDir".data with
    | none => .error "expect MergedDir in GraphDriver setting".data
    | some d => .ok { pid := intAsU64 r.State.Pid, merged_dir := d }

/-- Layer metadata entry of `LayerSources` in the image manifest
(src/docker_helper.rs lines 17-23). -/
structure DockerManifestLayerSource where
  media_type : List Char
  size : Nat
  digest : List Char
deriving DecidableEq, Repr

/-- Image manifest entry parsed from `manifest.json`
(src/docker_helper.rs lines 25-32). -/
structure DockerManifest where
  config : List Char
  repo_tags : List (List Char)
  layers : List (List Char)
  layer_sources : List (List Char × DockerManifestLayerSource)
deriving DecidableEq, Repr

/-- Errors of the manifest-processing phase of `export_overlay_image`,
one constructor per `anyhow!` message in src/docker_helper.rs
lines 162-198, plus the `unwrap` panic on a layer path without `/` and a
propagated `extract_archive` failure. -/
inductive ExportError
  /-- The message `no manifest found` (line 164). -/
  | noManifest
  /-- The message `layer blob not found` (line 174). -/
  | layerBlobNotFound
  /-- The message `layer info not found` (line 184). -/
  | layerInfoNotFound
  /-- The message `unsupported layer type: {media_type}` (line 189). -/
  | unsupportedLayerType (mediaType : List Char)
  /-- Panic of `.nth(1).unwrap()` on a layer path with no `/` (line 178). -/
  | panicNoSlash
  /-- An error propagated from `utils::extract_archive` (line 197). -/
  | extractFailed (msg : List Char)
deriving DecidableEq, Repr

/-- Log lines the manifest-processing phase can emit. -/
inductive ExportLog
  /-- The warning `multiple manifest entries found, only the first one will
  be used` (line 168). -/
  | multipleManifests
deriving DecidableEq, Repr

/-- Embedding of the `LayerSources` key derivation (src/docker_helper.rs
lines 175-180): `layer.splitn(2, '/').nth(1)` is the part after the first
`/` (a panic, modelled as `none`, when there is none), then every `/` is
replaced by `:`. -/
def layer_entry_name (layer : List Char) : Option (List Char) :=
  match splitOnceCh '/' layer with
  | none => none
  | some (_, rest) => some (replaceCh '/' ':' rest)

/-- Media type string the code accepts: `MediaType::from(s)` yields
`MediaType::ImageLayer` exactly for the uncompressed OCI image-layer
media type (the `oci_spec` conversion matches this literal string). -/
def ociImageLayerMediaType : List Char :=
  "application/vnd.oci.image.layer.v1.tar".data

/-- Embedding of the layer loop of `export_overlay_image`
(src/docker_helper.rs lines 171-198).  `blob` is the in-memory map from
tar entry path to blob bytes; `extractRes b` is the result
`utils::extract_archive` would give on blob `b` (`none` = success),
keeping that call abstract here (it is modelled in full separately).
Returns the blobs handed to `extract_archive`, in order, paired with the
error that stopped the loop, if any. -/
def process_layers (sources : List (List Char × DockerManifestLayerSource))
    (blob : List (List Char × List Nat)) (extractRes : List Nat → Option (List Char)) :
    List (List Char) → List (List Nat) × Option ExportError
  | [] => ([], none)
  | layer :: rest =>
    match lookupAssoc blob layer with
    | none => ([], some .layerBlobNotFound)
    | some layerBlob =>
      match layer_entry_name layer with
      | none => ([], some .panicNoSlash)
      | some key =>
        match lookupAssoc sources key with
        | none => ([], some .layerInfoNotFound)
        | some info =>
          if info.media_type ≠ ociImageLayerMediaType then
            ([], some (.unsupportedLayerType info.media_type))
          else
            match extractRes layerBlob with
            | some msg => ([layerBlob], some (.extractFailed msg))
            | none =>
              let r := process_layers sources blob extractRes rest
              (layerBlob :: r.1, r.2)

/-- Embedding of the manifest-selection phase of `export_overlay_image`
(src/docker_helper.rs lines 162-198): error on an empty manifest array, a
warning (and use of only the first entry) on more than one, then the layer
loop over the first entry.  Returns the log lines, the blobs extracted in
order, and the error, if any. -/
def export_manifest_phase (manifests : List DockerManifest)
    (blob : List (List Char × List Nat)) (extractRes : List Nat → Option (List Char)) :
    List ExportLog × List (List Nat) × Option ExportError :=
  match manifests with
  | [] => ([], [], some .noManifest)
  | m :: rest =>
    let logs := if rest.isEmpty then [] else [ExportLog.multipleManifests]
    let r := process_layers m.layer_sources blob extractRes m.layers
    (logs, r.1, r.2)

/-- Paths in the filesystem model, as flat strings (the code joins
`dst_dir.join(entry_path)` and treats the result opaquely). -/
abbrev FsPath := List Char

/-- Node of the filesystem model: a regular file with mode and bytes, a
directory with mode, or a symbolic link storing its target verbatim. -/
inductive FsNode
  | file (mode : Nat) (content : List Nat)
  | dir (mode : Nat)
  | symlink (target : FsPath)
deriving DecidableEq, Repr

/-- Filesystem state: a flat map from path to node. -/
abbrev Fs := List (FsPath × FsNode)

/-- Bind `p` to node `n`, replacing an existing binding. -/
def setFs (fs : Fs) (p : FsPath) (n : FsNode) : Fs :=
  match fs with
  | [] => [(p, n)]
  | (p', n') :: rest => if p' = p then (p, n) :: rest else (p', n') :: setFs rest p n

/-- Drop the binding of `p`, modelling `unlink`. -/
def removeFs (fs : Fs) (p : FsPath) : Fs :=
  fs.filter (fun b => b.1 ≠ p)

/-- Follow symbolic links starting at `p` until a non-symlink path is
reached; `fuel` bounds chain length (exhaustion models `ELOOP`). -/
def resolvePath (fs : Fs) : Nat → FsPath → Option FsPath
  | 0, _ => none
  | fuel + 1, p =>
    match lookupAssoc fs p with
    | some (.symlink t) => resolvePath fs fuel t
    | _ => some p

/-- Model of `Path::exists` (src/utils.rs line 35): `stat` semantics, so
symbolic links are followed; a dangling symlink reports `false`. -/
def fsExists (fuel : Nat) (fs : Fs) (p : FsPath) : Bool :=
  match resolvePath fs fuel p with
  | none => false
  | some q => (lookupAssoc fs q).isSome

/-- Model of `File::create`: open with create-and-truncate, following
symbolic links; fails on a symlink loop or a directory.  Returns the new
state and the resolved path the open file refers to.  Truncation keeps the
existing mode; a fresh file gets the umask-governed default. -/
def fsCreateFile (fuel : Nat) (fs : Fs) (p : FsPath) :
    Except (List Char) (Fs × FsPath) :=
  match resolvePath fs fuel p with
  | none => .error "too many levels of symbolic links".data
  | some q =>
    match lookupAssoc fs q with
    | some (.dir _) => .error "is a directory".data
    | some (.file m _) => .ok (setFs fs q (.file m []), q)
    | _ => .ok (setFs fs q (.file 0o644 []), q)

/-- Update the mode of the node at the already-resolved path `q`,
modelling a permissions change through an open file descriptor. -/
def fsSetMode (fs : Fs) (q : FsPath) (mode : Nat) : Fs :=
  match lookupAssoc fs q with
  | some (.file _ c) => setFs fs q (.file mode c)
  | some (.dir _) => setFs fs q (.dir mode)
  | _ => fs

/-- Replace the content of the file at the already-resolved path `q`,
modelling `io::copy` into a freshly truncated file. -/
def fsWriteContent (fs : Fs) (q : FsPath) (bytes : List Nat) : Fs :=
  match lookupAssoc fs q with
  | some (.file m _) => setFs fs q (.file m bytes)
  | _ => fs

/-- Model of `fs::create_dir_all`: succeeds when the path already resolves
to a directory, creates one when it is absent, fails when it is occupied
by a non-directory (the flat path map elides intermediate components). -/
def fsCreateDirAll (fuel : Nat) (fs : Fs) (p : FsPath) : Except (List Char) Fs :=
  match resolvePath fs fuel p with
  | none => .error "too many levels of symbolic links".data
  | some q =>
    match lookupAssoc fs q with
    | some (.dir _) => .ok fs
    | some _ => .error "file exists".data
    | none => .ok (setFs fs q (.dir 0o755))

/-- Model of `fs::set_permissions`: follows symbolic links, then updates
the mode of the resolved node; fails when the path does not exist. -/
def fsSetPermissions (fuel : Nat) (fs : Fs) (p : FsPath) (mode : Nat) :
    Except (List Char) Fs :=
  match resolvePath fs fuel p with
  | none => .error "too many levels of symbolic links".data
  | some q =>
    if (lookupAssoc fs q).isSome then .ok (fsSetMode fs q mode)
    else .error "no such file or directory".data

/-- Model of `fs::remove_file` (`unlink`): removes the binding at `p`
itself — the final symlink is NOT followed; fails when `p` is absent or a
directory. -/
def fsRemoveFile (fs : Fs) (p : FsPath) : Except (List Char) Fs :=
  match lookupAssoc fs p with
  | none => .error "no such file or directory".data
  | some (.dir _) => .error "is a directory".data
  | some _ => .ok (removeFs fs p)

/-- Model of `unix::fs::symlink(target, link)` (`symlink(2)`): `lstat`
semantics on the link path, so it fails with `EEXIST` whenever any entry —
including a dangling symlink — occupies `link`; the target is stored
verbatim, never resolved. -/
def fsSymlink (fs : Fs) (target : FsPath) (link : FsPath) : Except (List Char) Fs :=
  match lookupAssoc fs link with
  | some _ => .error "file exists".data
  | none => .ok (setFs fs link (.symlink target))

/-- Entry types of the `tar` crate the code distinguishes
(src/utils.rs lines 17-53): `Regular`, `Directory`, `Symlink`, `Link`,
and everything else (`other`, tagged by the raw type byte). -/
inductive TarEntryType
  | regular
  | directory
  | symlink
  | link
  | other (tag : Nat)
deriving DecidableEq, Repr

/-- A tar entry as the code reads it: type, path, header mode, header link
name (absent on non-link entries), and content bytes. -/
structure TarEntry where
  etype : TarEntryType
  path : FsPath
  mode : Nat
  link_name : Option FsPath
  content : List Nat

/-- Errors of `extract_archive` (src/utils.rs), carrying the filesystem
state at the failure point. -/
inductive ExtractError
  /-- A propagated `std::io` failure (`?` on create/copy/permissions). -/
  | ioError (msg : List Char)
  /-- Panic of `link_name()?.unwrap()` when the header has no link name
  (line 31). -/
  | panicNoLinkName
  /-- The mapped `anyhow!` error `failed to symlink: {e}, original path:
  {original}, file {dst}` (lines 39-46). -/
  | failedToSymlink (original : FsPath) (dst : FsPath)
deriving DecidableEq, Repr

/-- Log lines `extract_archive` can print. -/
inductive ExtractLog
  /-- The line `overriding symlink: {dst}` (line 36). -/
  | overrideSymlink (dst : FsPath)
  /-- The line `warning: skipping entry type: .. for {dst}` (lines 48-52). -/
  | skippingEntryType (dst : FsPath)
deriving DecidableEq, Repr

/-- Model of `dst_dir.join(path)` for the relative paths tar archives
carry. -/
def joinPath (dir p : FsPath) : FsPath :=
  dir ++ '/' :: p

/-- Embedding of one iteration of the `extract_archive` loop
(src/utils.rs lines 13-53): dispatch on the entry type; regular files are
created (truncating), given the header mode, and filled; directories are
created recursively and given the header mode; symlink and hardlink
entries become symbolic links to the header's link name verbatim, with an
existing (stat-visible) destination removed first and an override logged;
any other type logs a warning and is skipped. -/
def extract_entry (fuel : Nat) (dst_dir : FsPath) (fs : Fs) (e : TarEntry) :
    Except (ExtractError × Fs) (Fs × List ExtractLog) :=
  let dst_path := joinPath dst_dir e.path
  match e.etype with
  | .regular =>
    match fsCreateFile fuel fs dst_path with
    | .error msg => .error (.ioError msg, fs)
    | .ok (fs1, q) =>
      let fs2 := fsSetMode fs1 q e.mode
      .ok (fsWriteContent fs2 q e.content, [])
  | .directory =>
    match fsCreateDirAll fuel fs dst_path with
    | .error msg => .error (.ioError msg, fs)
    | .ok fs1 =>
      match fsSetPermissions fuel fs1 dst_path e.mode with
      | .error msg => .error (.ioError msg, fs1)
      | .ok fs2 => .ok (fs2, [])
  | .symlink | .link =>
    match e.link_name with
    | none => .error (.panicNoLinkName, fs)
    | some link =>
      if fsExists fuel fs dst_path then
        match fsRemoveFile fs dst_path with
        | .error msg => .error (.ioError msg, fs)
        | .ok fs1 =>
          match fsSymlink fs1 link dst_path with
          | .error _ => .error (.failedToSymlink link dst_path, fs1)
          | .ok fs2 => .ok (fs2, [.overrideSymlink dst_path])
      else
        match fsSymlink fs link dst_path with
        | .error _ => .error (.failedToSymlink link dst_path, fs)
        | .ok fs1 => .ok (fs1, [])
  | .other _ => .ok (fs, [.skippingEntryType dst_path])

/-- Embedding of `extract_archive` (src/utils.rs lines 10-57): process the
entries in order, threading the filesystem state and accumulating log
lines; the first failing entry aborts the run. -/
def extract_archive (fuel : Nat) (dst_dir : FsPath) (fs : Fs) :
    List TarEntry → Except (ExtractError × Fs) (Fs × List ExtractLog)
  | [] => .ok (fs, [])
  | e :: rest =>
    match extract_entry fuel dst_dir fs e with
    | .error err => .error err
    | .ok (fs1, logs) =>
      match extract_archive fuel dst_dir fs1 rest with
      | .error err => .error err
      | .ok (fs2, logs2) => .ok (fs2, logs ++ logs2)

/-- Linux `CLONE_NEWNS` (mount namespace), value from `libc`. -/
def CLONE_NEWNS : Nat := 0x00020000

/-- Linux `CLONE_NEWCGROUP`, value from `libc`. -/
def CLONE_NEWCGROUP : Nat := 0x02000000

/-- Linux `CLONE_NEWUTS`, value from `libc`. -/
def CLONE_NEWUTS : Nat := 0x04000000

/-- Linux `CLONE_NEWIPC`, value from `libc`. -/
def CLONE_NEWIPC : Nat := 0x08000000

/-- Linux `CLONE_NEWPID`, value from `libc`. -/
def CLONE_NEWPID : Nat := 0x20000000

/-- Linux `CLONE_NEWNET`, value from `libc`. -/
def CLONE_NEWNET : Nat := 0x40000000

/-- Embedding of the flag mask passed to `setns` when attaching to the
target container's namespaces (src/main.rs lines 349-358; the
`CLONE_NEWNS` term is commented out at line 355). -/
def setns_attach_flags : Nat :=
  CLONE_NEWCGROUP ||| CLONE_NEWIPC ||| CLONE_NEWNET ||| CLONE_NEWPID ||| CLONE_NEWUTS

/-- Namespace memberships of a process, one inode id per namespace type
the orchestrator touches. -/
structure ProcessNamespaces where
  mnt : Nat
  net : Nat
  pid : Nat
  ipc : Nat
  uts : Nat
  cgroup : Nat
deriving DecidableEq, Repr

/-- Kernel semantics of `setns(pidfd, flags)` with a PID file descriptor:
for every namespace type whose `CLONE_NEW*` flag is set, the caller joins
the target's namespace of that type; every other membership is untouched. -/
def setnsAttach (cur target : ProcessNamespaces) (flags : Nat) : ProcessNamespaces where
  mnt := if flags &&& CLONE_NEWNS ≠ 0 then target.mnt else cur.mnt
  net := if flags &&& CLONE_NEWNET ≠ 0 then target.net else cur.net
  pid := if flags &&& CLONE_NEWPID ≠ 0 then target.pid else cur.pid
  ipc := if flags &&& CLONE_NEWIPC ≠ 0 then target.ipc else cur.ipc
  uts := if flags &&& CLONE_NEWUTS ≠ 0 then target.uts else cur.uts
  cgroup := if flags &&& CLONE_NEWCGROUP ≠ 0 then target.cgroup else cur.cgroup

/-! Helper lemmas about the string primitives. -/

theorem splitOnceCh_of_not_mem {c : Char} {s : List Char} (h : c ∉ s) :
    splitOnceCh c s = none := by
  induction s with
  | nil => rfl
  | cons x rest ih =>
    have hx : ¬x = c := fun hxc => h (hxc ▸ List.mem_cons_self x rest)
    have hr : c ∉ rest := fun hm => h (List.mem_cons_of_mem x hm)
    simp [splitOnceCh, hx, ih hr]

theorem splitOnceCh_append {c : Char} {a : List Char} (b : List Char) (h : c ∉ a) :
    splitOnceCh c (a ++ c :: b) = some (a, b) := by
  induction a with
  | nil => simp [splitOnceCh]
  | cons x rest ih =>
    have hx : ¬x = c := fun hxc => h (hxc ▸ List.mem_cons_self x rest)
    have hr : c ∉ rest := fun hm => h (List.mem_cons_of_mem x hm)
    simp [splitOnceCh, hx, ih hr]

theorem findCh_of_not_mem {c : Char} {s : List Char} (h : c ∉ s) :
    findCh c s = none := by
  induction s with
  | nil => rfl
  | cons x rest ih =>
    have hx : ¬x = c := fun hxc => h (hxc ▸ List.mem_cons_self x rest)
    have hr : c ∉ rest := fun hm => h (List.mem_cons_of_mem x hm)
    simp [findCh, hx, ih hr]

theorem findCh_append {c : Char} {a : List Char} (b : List Char) (h : c ∉ a) :
    findCh c (a ++ c :: b) = some a.length := by
  induction a with
  | nil => simp [findCh]
  | cons x rest ih =>
    have hx : ¬x = c := fun hxc => h (hxc ▸ List.mem_cons_self x rest)
    have hr : c ∉ rest := fun hm => h (List.mem_cons_of_mem x hm)
    simp [findCh, hx, ih hr]

theorem findCh_isSome_of_mem {c : Char} {s : List Char} (h : c ∈ s) :
    ∃ i, findCh c s = some i := by
  induction s with
  | nil => cases h
  | cons x rest ih =>
    by_cases hx : x = c
    · exact ⟨0, by simp [findCh, hx]⟩
    · rcases List.mem_cons.mp h with h1 | h2
      · exact absurd h1.symm hx
      · obtain ⟨i, hi⟩ := ih h2
        exact ⟨i + 1, by simp [findCh, hx, hi]⟩

theorem replaceCh_of_not_mem {a b : Char} {s : List Char} (h : a ∉ s) :
    replaceCh a b s = s := by
  induction s with
  | nil => rfl
  | cons x rest ih =>
    have hx : ¬x = a := fun hxc => h (hxc ▸ List.mem_cons_self x rest)
    have hr : a ∉ rest := fun hm => h (List.mem_cons_of_mem x hm)
    simp [replaceCh, hx] at ih ⊢
    exact ih hr

theorem replaceCh_append (a b : Char) (s t : List Char) :
    replaceCh a b (s ++ t) = replaceCh a b s ++ replaceCh a b t := by
  simp [replaceCh]

theorem sliceCh_middle (a b c2 : List Char) :
    sliceCh (a ++ (b ++ c2)) a.length (a.length + b.length) = b := by
  unfold sliceCh
  rw [List.take_append, List.drop_left]
  rw [List.take_left]

theorem parseUsize_of_digits {ds : List Char} (h0 : ds ≠ [])
    (h1 : ds.all Char.isDigit) (h2 : digitsVal ds < 2 ^ 64) :
    parseUsize ds = some (digitsVal ds) := by
  match ds, h0 with
  | c :: rest, _ =>
    have hc : c.isDigit := by
      have := List.all_eq_true.mp h1 c (List.mem_cons_self c rest)
      simpa using this
    have hne : ¬c = '+' := by
      intro hcp
      rw [hcp] at hc
      simp [Char.isDigit] at hc
    simp only [parseUsize, List.head?, Option.some.injEq, hne, if_false, if_neg hne]
    simp [h1]
    simpa using h2

/-! Helper lemmas about the filesystem model and the layer loop. -/

theorem lookupAssoc_setFs (fs : Fs) (p : FsPath) (n : FsNode) :
    lookupAssoc (setFs fs p n) p = some n := by
  induction fs with
  | nil => simp [setFs, lookupAssoc]
  | cons bd rest ih =>
    obtain ⟨q, m⟩ := bd
    by_cases h : q = p
    · simp [setFs, h, lookupAssoc]
    · simp [setFs, h, lookupAssoc, ih]

theorem setFs_setFs (fs : Fs) (p : FsPath) (a b : FsNode) :
    setFs (setFs fs p a) p b = setFs fs p b := by
  induction fs with
  | nil => simp [setFs]
  | cons bd rest ih =>
    obtain ⟨q, m⟩ := bd
    by_cases h : q = p
    · simp [setFs, h]
    · simp [setFs, h, ih]

theorem lookupAssoc_removeFs (fs : Fs) (p : FsPath) :
    lookupAssoc (removeFs fs p) p = none := by
  induction fs with
  | nil => rfl
  | cons bd rest ih =>
    obtain ⟨q, m⟩ := bd
    by_cases h : q = p
    · simpa [removeFs, h] using ih
    · simpa [removeFs, lookupAssoc, h] using ih

theorem process_layers_append (s : List (List Char × DockerManifestLayerSource))
    (b : List (List Char × List Nat)) (er : List Nat → Option (List Char))
    (pre rest : List (List Char)) (bls : List (List Nat))
    (h : process_layers s b er pre = (bls, none)) :
    process_layers s b er (pre ++ rest) =
      (bls ++ (process_layers s b er rest).1, (process_layers s b er rest).2) := by
  induction pre generalizing bls with
  | nil =>
    simp only [process_layers] at h
    have hb : bls = [] := (congrArg Prod.fst h).symm
    subst hb
    simp
  | cons l pre ih =>
    simp only [process_layers, List.cons_append] at h ⊢
    cases h1 : lookupAssoc b l with
    | none => simp [h1] at h
    | some lb =>
      simp only [h1] at h ⊢
      cases h2 : layer_entry_name l with
      | none => simp [h2] at h
      | some key =>
        simp only [h2] at h ⊢
        cases h3 : lookupAssoc s key with
        | none => simp [h3] at h
        | some info =>
          simp only [h3] at h ⊢
          by_cases h4 : info.media_type ≠ ociImageLayerMediaType
          · simp only [if_pos h4] at h
            simp at h
          · simp only [if_neg h4] at h ⊢
            cases h5 : er lb with
            | some msg => simp [h5] at h
            | none =>
              simp only [h5, List.append_eq] at h ⊢
              have h6 : (process_layers s b er pre).2 = none := congrArg Prod.snd h
              have h7 : bls = lb :: (process_layers s b er pre).1 :=
                (congrArg Prod.fst h).symm
              rw [h7, ih (process_layers s b er pre).1 (by rw [← h6])]
              simp

theorem process_layers_snd_ne_noManifest (s : List (List Char × DockerManifestLayerSource))
    (b : List (List Char × List Nat)) (er : List Nat → Option (List Char))
    (layers : List (List Char)) :
    (process_layers s b er layers).2 ≠ some ExportError.noManifest := by
  induction layers with
  | nil => simp [process_layers]
  | cons l rest ih =>
    simp only [process_layers]
    cases h1 : lookupAssoc b l with
    | none => simp [h1]
    | some lb =>
      simp only [h1]
      cases h2 : layer_entry_name l with
      | none => simp [h2]
      | some key =>
        simp only [h2]
        cases h3 : lookupAssoc s key with
        | none => simp [h3]
        | some info =>
          simp only [h3]
          by_cases h4 : info.media_type ≠ ociImageLayerMediaType
          · simp only [if_pos h4]
            simp
          · simp only [if_neg h4]
            cases h5 : er lb with
            | some msg => simp [h5]
            | none => simp only [h5]; simpa using ih

/-! Theorems for the claims. -/

/-- C1 (counterexample): the claim reads the cache filename as splitting
the reference at its LAST `:`; the code (`split_once`) splits at the FIRST
`:`.  On `registry:5000/foo:tag` the code yields
`registry_5000/foo:tag.tar` while the claim's formula yields
`registry:5000_foo_tag.tar`, so the claim as stated is false. -/
theorem image_cache_filename_last_colon_counterexample :
    image_cache_filename "registry:5000/foo:tag".data = "registry_5000/foo:tag.tar".data ∧
    cache_filename_spec_last "registry:5000/foo:tag".data = "registry:5000_foo_tag.tar".data ∧
    image_cache_filename "registry:5000/foo:tag".data ≠
      cache_filename_spec_last "registry:5000/foo:tag".data := by
  refine ⟨by decide, by decide, by decide⟩

/-- C1 (amended): `image_cache_filename` returns the reference's name part
with every `/` replaced by `_`, then `_`, the tag, and `.tar`, where the
reference is split into `(name, tag)` at its FIRST `:` and a reference
with no `:` gets tag `latest`; `debian:12` yields `debian_12.tar` and
`library/foo` yields `library_foo_latest.tar`. -/
theorem image_cache_filename_splits_at_first_colon
    (name tag image : List Char) (hn : ':' ∉ name) (hi : ':' ∉ image) :
    image_cache_filename (name ++ ':' :: tag) =
      replaceCh '/' '_' name ++ '_' :: tag ++ ".tar".data ∧
    image_cache_filename image =
      replaceCh '/' '_' image ++ '_' :: "latest".data ++ ".tar".data := by
  constructor
  · simp [image_cache_filename, splitOnceCh_append tag hn]
  · simp [image_cache_filename, splitOnceCh_of_not_mem hi]

/-- Witness for C1: the amended law instantiated at `debian:12` and
`library/foo`, giving `debian_12.tar` and `library_foo_latest.tar`. -/
theorem image_cache_filename_splits_at_first_colon_witness :
    image_cache_filename ("debian".data ++ ':' :: "12".data) =
      replaceCh '/' '_' "debian".data ++ '_' :: "12".data ++ ".tar".data ∧
    image_cache_filename "library/foo".data =
      replaceCh '/' '_' "library/foo".data ++ '_' :: "latest".data ++ ".tar".data :=
  ⟨(image_cache_filename_splits_at_first_colon "debian".data "12".data "library/foo".data
      (by decide) (by decide)).1,
    (image_cache_filename_splits_at_first_colon "debian".data "12".data "library/foo".data
      (by decide) (by decide)).2⟩

/-- C4 (counterexample): the claim reads the pull split as last-colon; the
code (`split_once` at src/docker_helper.rs line 89) splits at the FIRST
`:`.  On `registry:5000/foo:tag` the code yields
`("registry", "5000/foo:tag")`, not `("registry:5000/foo", "tag")`. -/
theorem pull_split_last_colon_counterexample :
    pull_split "registry:5000/foo:tag".data = ("registry".data, "5000/foo:tag".data) ∧
    pull_split_spec_last "registry:5000/foo:tag".data =
      ("registry:5000/foo".data, "tag".data) ∧
    pull_split "registry:5000/foo:tag".data ≠
      pull_split_spec_last "registry:5000/foo:tag".data := by
  refine ⟨by decide, by decide, by decide⟩

/-- C4 (amended): when pull is requested, `export_overlay_image` splits
the image reference at its FIRST `:` into `(name, tag)`, defaulting the
tag to `latest` when the reference contains no `:`, and passes that pair
to the daemon's create-image call. -/
theorem pull_split_splits_at_first_colon
    (name tag image : List Char) (hn : ':' ∉ name) (hi : ':' ∉ image) :
    pull_split (name ++ ':' :: tag) = (name, tag) ∧
    pull_split image = (image, "latest".data) := by
  constructor
  · simp [pull_split, splitOnceCh_append tag hn]
  · simp [pull_split, splitOnceCh_of_not_mem hi]

/-- Witness for C4: the amended split instantiated at `ubuntu:22.04` and
at the colon-free reference `alpine`. -/
theorem pull_split_splits_at_first_colon_witness :
    pull_split ("ubuntu".data ++ ':' :: "22.04".data) = ("ubuntu".data, "22.04".data) ∧
    pull_split "alpine".data = ("alpine".data, "latest".data) :=
  ⟨(pull_split_splits_at_first_colon "ubuntu".data "22.04".data "alpine".data
      (by decide) (by decide)).1,
    (pull_split_splits_at_first_colon "ubuntu".data "22.04".data "alpine".data
      (by decide) (by decide)).2⟩

/-- C8: the namespace-attach `setns` call uses exactly the mask
`CLONE_NEWCGROUP ||| CLONE_NEWIPC ||| CLONE_NEWNET ||| CLONE_NEWPID |||
CLONE_NEWUTS`, whose `CLONE_NEWNS` bit is clear, so under the kernel
semantics of `setns` the attach step joins the target's cgroup, IPC, net,
PID and UTS namespaces and leaves the caller's mount-namespace membership
unchanged. -/
theorem setns_attach_flags_exclude_mount_ns :
    setns_attach_flags =
      CLONE_NEWCGROUP ||| CLONE_NEWIPC ||| CLONE_NEWNET ||| CLONE_NEWPID ||| CLONE_NEWUTS ∧
    setns_attach_flags &&& CLONE_NEWNS = 0 ∧
    ∀ cur target : ProcessNamespaces,
      (setnsAttach cur target setns_attach_flags).mnt = cur.mnt ∧
      (setnsAttach cur target setns_attach_flags).net = target.net ∧
      (setnsAttach cur target setns_attach_flags).pid = target.pid ∧
      (setnsAttach cur target setns_attach_flags).ipc = target.ipc ∧
      (setnsAttach cur target setns_attach_flags).uts = target.uts ∧
      (setnsAttach cur target setns_attach_flags).cgroup = target.cgroup := by
  refine ⟨rfl, by decide, ?_⟩
  intro cur target
  refine ⟨?_, ?_, ?_, ?_, ?_, ?_⟩ <;>
    simp only [setnsAttach] <;>
    first
      | rw [if_neg (by decide)]
      | rw [if_pos (by decide)]

/-- C2: `parse_namespace_content` returns Ok of the integer written
between the first `[` and the first `]` of the string (a missing bracket
or a non-numeric interior is an error): a missing `[` errors; a `[`
without `]` errors; a string `pre[ds]suf` with bracket-free `pre` and a
nonempty digit interior below `2^64` parses to the interior's value; the
same shape with an interior Rust's integer parse rejects errors. -/
theorem parse_namespace_content_spec :
    (∀ content : List Char, '[' ∉ content →
      parse_namespace_content content = .error "invalid namespace start content".data) ∧
    (∀ content : List Char, '[' ∈ content → ']' ∉ content →
      parse_namespace_content content = .error "invalid namespace end content".data) ∧
    (∀ pre ds suf : List Char, '[' ∉ pre → ']' ∉ pre → ds ≠ [] →
      ds.all Char.isDigit → digitsVal ds < 2 ^ 64 →
      parse_namespace_content (pre ++ '[' :: (ds ++ ']' :: suf)) = .ok (digitsVal ds)) ∧
    (∀ pre mid suf : List Char, '[' ∉ pre → ']' ∉ pre → ']' ∉ mid →
      parseUsize mid = none →
      parse_namespace_content (pre ++ '[' :: (mid ++ ']' :: suf)) =
        .error "invalid digit found in string".data) := by
  have key : ∀ pre mid suf : List Char, '[' ∉ pre → ']' ∉ pre → ']' ∉ mid →
      parse_namespace_content (pre ++ '[' :: (mid ++ ']' :: suf)) =
        match parseUsize mid with
        | some v => .ok v
        | none => .error "invalid digit found in string".data := by
    intro pre mid suf h1 h2 h3
    have hfind1 : findCh '[' (pre ++ '[' :: (mid ++ ']' :: suf)) = some pre.length :=
      findCh_append _ h1
    have hpre2 : ']' ∉ pre ++ '[' :: mid := by
      intro hm
      rcases List.mem_append.mp hm with hx | hx
      · exact h2 hx
      · rcases List.mem_cons.mp hx with hx | hx
        · exact absurd hx (by decide)
        · exact h3 hx
    have hfind2 : findCh ']' ((pre ++ '[' :: mid) ++ ']' :: suf) =
        some (pre ++ '[' :: mid).length := findCh_append _ hpre2
    have heq : (pre ++ '[' :: mid) ++ ']' :: suf = pre ++ '[' :: (mid ++ ']' :: suf) := by
      simp
    rw [heq] at hfind2
    have hslice : sliceCh (pre ++ '[' :: (mid ++ ']' :: suf)) (pre.length + 1)
        (pre ++ '[' :: mid).length = mid := by
      have hshape : pre ++ '[' :: (mid ++ ']' :: suf) =
          (pre ++ ['[']) ++ (mid ++ ']' :: suf) := by simp
      have hlen1 : (pre ++ ['[']).length = pre.length + 1 := by simp
      have hlen2 : (pre ++ '[' :: mid).length = (pre ++ ['[']).length + mid.length := by
        simp
        omega
      rw [hshape, hlen2, ← hlen1]
      exact sliceCh_middle _ _ _
    have hle : pre.length + 1 ≤ (pre ++ '[' :: mid).length := by
      simp
    simp only [parse_namespace_content, hfind1, hfind2, if_pos hle, hslice]
  refine ⟨?_, ?_, ?_, ?_⟩
  · intro content h
    simp [parse_namespace_content, findCh_of_not_mem h]
  · intro content h1 h2
    obtain ⟨i, hi⟩ := findCh_isSome_of_mem h1
    simp [parse_namespace_content, hi, findCh_of_not_mem h2]
  · intro pre ds suf h1 h2 h3 h4 h5
    have hds : ']' ∉ ds := by
      intro hm
      have := List.all_eq_true.mp h4 _ hm
      simp [Char.isDigit] at this
    rw [key pre ds suf h1 h2 hds, parseUsize_of_digits h3 h4 h5]
  · intro pre mid suf h1 h2 h3 h4
    rw [key pre mid suf h1 h2 h3, h4]

/-- Witness for C2: `mnt:[4026532001]` parses to `4026532001`; `mnt:` has
no `[` and errors; `mnt:[4026532001` has no `]` and errors; `mnt:[40x1]`
has a non-numeric interior and errors. -/
theorem parse_namespace_content_spec_witness :
    parse_namespace_content ("mnt:".data ++ '[' :: ("4026532001".data ++ ']' :: "".data)) =
      .ok (digitsVal "4026532001".data) ∧
    digitsVal "4026532001".data = 4026532001 ∧
    parse_namespace_content "mnt:".data = .error "invalid namespace start content".data ∧
    parse_namespace_content "mnt:[4026532001".data =
      .error "invalid namespace end content".data ∧
    parse_namespace_content ("mnt:".data ++ '[' :: ("40x1".data ++ ']' :: "".data)) =
      .error "invalid digit found in string".data :=
  ⟨parse_namespace_content_spec.2.2.1 "mnt:".data "4026532001".data "".data
      (by decide) (by decide) (by decide) (by decide) (by decide),
    by decide,
    parse_namespace_content_spec.1 "mnt:".data (by decide),
    parse_namespace_content_spec.2.1 "mnt:[4026532001".data (by decide) (by decide),
    parse_namespace_content_spec.2.2.2 "mnt:".data "40x1".data "".data
      (by decide) (by decide) (by decide) (by decide)⟩

/-- C3: `get_container_info` rejects a non-running container first (even
when the driver is also wrong), then a driver other than `overlay2` (the
error names the driver), then a missing `MergedDir` key; otherwise it
returns the reported `State.Pid` (cast `as u64`) and the reported
`MergedDir` path. -/
theorem get_container_info_check_order :
    (∀ r : DockerContainerResponse, r.State.Running = false →
      get_container_info r = .error "container is not running".data) ∧
    (∀ r : DockerContainerResponse, r.State.Running = true →
      r.Driver ≠ "overlay2".data →
      get_container_info r =
        .error ("only overlay2 driver is supported, found: ".data ++ r.Driver)) ∧
    (∀ r : DockerContainerResponse, r.State.Running = true →
      r.Driver = "overlay2".data →
      lookupAssoc r.GraphDriverData "MergedDir".data = none →
      get_container_info r = .error "expect MergedDir in GraphDriver setting".data) ∧
    (∀ (r : DockerContainerResponse) (d : List Char), r.State.Running = true →
      r.Driver = "overlay2".data →
      lookupAssoc r.GraphDriverData "MergedDir".data = some d →
      get_container_info r = .ok ⟨intAsU64 r.State.Pid, d⟩) := by
  refine ⟨?_, ?_, ?_, ?_⟩
  · intro r h
    simp [get_container_info, h]
  · intro r h1 h2
    simp [get_container_info, h1, h2]
  · intro r h1 h2 h3
    simp [get_container_info, h1, h2, h3]
  · intro r d h1 h2 h3
    simp [get_container_info, h1, h2, h3]

/-- Witness for C3: a stopped `aufs` container is reported as not running
(order of checks); a running `aufs` container errors naming `aufs`; a
running overlay2 container without `MergedDir` errors; PID 12345 with
MergedDir `/var/lib/docker/overlay2/AAA/merged` succeeds. -/
theorem get_container_info_check_order_witness :
    get_container_info
        { State := { Running := false, Pid := 12345 }, Driver := "aufs".data,
          GraphDriverData := [] } = .error "container is not running".data ∧
    get_container_info
        { State := { Running := true, Pid := 12345 }, Driver := "aufs".data,
          GraphDriverData := [] } =
      .error ("only overlay2 driver is supported, found: ".data ++ "aufs".data) ∧
    get_container_info
        { State := { Running := true, Pid := 12345 }, Driver := "overlay2".data,
          GraphDriverData := [] } =
      .error "expect MergedDir in GraphDriver setting".data ∧
    get_container_info
        { State := { Running := true, Pid := 12345 }, Driver := "overlay2".data,
          GraphDriverData :=
            [("MergedDir".data, "/var/lib/docker/overlay2/AAA/merged".data)] } =
      .ok ⟨intAsU64 12345, "/var/lib/docker/overlay2/AAA/merged".data⟩ :=
  ⟨get_container_info_check_order.1 _ rfl,
    get_container_info_check_order.2.1 _ rfl (by decide),
    get_container_info_check_order.2.2.1 _ rfl rfl (by decide),
    get_container_info_check_order.2.2.2 _ _ rfl rfl (by decide)⟩

/-- C5: for a manifest layer path `blobs/sha256/<hex>` the key looked up
in `LayerSources` is exactly `sha256:<hex>`, and a layer whose key has no
`LayerSources` entry fails the export with the layer-info-not-found error
(layers before it having been extracted normally). -/
theorem layer_sources_key_and_missing_entry :
    (∀ hex : List Char, '/' ∉ hex →
      layer_entry_name ("blobs/sha256/".data ++ hex) = some ("sha256:".data ++ hex)) ∧
    (∀ (s : List (List Char × DockerManifestLayerSource))
      (b : List (List Char × List Nat)) (er : List Nat → Option (List Char))
      (pre rest : List (List Char)) (bls : List (List Nat)) (layer key : List Char)
      (bl : List Nat),
      process_layers s b er pre = (bls, none) →
      lookupAssoc b layer = some bl →
      layer_entry_name layer = some key →
      lookupAssoc s key = none →
      process_layers s b er (pre ++ layer :: rest) =
        (bls, some .layerInfoNotFound)) := by
  constructor
  · intro hex hhex
    rw [show ("blobs/sha256/".data ++ hex) =
        ("blobs".data ++ '/' :: ("sha256/".data ++ hex)) from rfl]
    rw [layer_entry_name, splitOnceCh_append _ (by decide)]
    simp only [replaceCh_append, replaceCh_of_not_mem hhex]
    rfl
  · intro s b er pre rest bls layer key bl hpre hblob hkey hsrc
    rw [process_layers_append s b er pre (layer :: rest) bls hpre]
    have hstep : process_layers s b er (layer :: rest) =
        ([], some .layerInfoNotFound) := by
      simp only [process_layers, hblob, hkey, hsrc]
    rw [hstep]
    simp

/-- Witness for C5: the key for `blobs/sha256/aa` is `sha256:aa`, and a
one-layer manifest whose `LayerSources` map is empty fails with the
layer-info-not-found error. -/
theorem layer_sources_key_and_missing_entry_witness :
    layer_entry_name ("blobs/sha256/".data ++ "aa".data) =
      some ("sha256:".data ++ "aa".data) ∧
    process_layers [] [("blobs/sha256/aa".data, [1])] (fun _ => none)
        ([] ++ "blobs/sha256/aa".data :: []) = ([], some .layerInfoNotFound) :=
  ⟨layer_sources_key_and_missing_entry.1 "aa".data (by decide),
    layer_sources_key_and_missing_entry.2 [] [("blobs/sha256/aa".data, [1])]
      (fun _ => none) [] [] [] "blobs/sha256/aa".data "sha256:aa".data [1]
      rfl (by decide) (by decide) rfl⟩

/-- C7: `export_overlay_image` walks the first manifest entry's layers in
`Layers` order; with a clean prefix `pre` (its blobs extracted, in order),
a layer whose `LayerSources` media type is not the uncompressed OCI
image-layer type stops the run with the unsupported-layer-type error, and
exactly the prefix blobs — nothing at or after the offending layer — have
been handed to the extractor. -/
theorem export_unsupported_layer_aborts
    (m : DockerManifest) (ms : List DockerManifest)
    (b : List (List Char × List Nat)) (er : List Nat → Option (List Char))
    (pre rest : List (List Char)) (bls : List (List Nat)) (layer key : List Char)
    (bl : List Nat) (info : DockerManifestLayerSource)
    (hlayers : m.layers = pre ++ layer :: rest)
    (hpre : process_layers m.layer_sources b er pre = (bls, none))
    (hblob : lookupAssoc b layer = some bl)
    (hkey : layer_entry_name layer = some key)
    (hsrc : lookupAssoc m.layer_sources key = some info)
    (hmedia : info.media_type ≠ ociImageLayerMediaType) :
    export_manifest_phase (m :: ms) b er =
      ((if ms.isEmpty then [] else [ExportLog.multipleManifests]), bls,
        some (.unsupportedLayerType info.media_type)) := by
  have hstep : process_layers m.layer_sources b er (layer :: rest) =
      ([], some (.unsupportedLayerType info.media_type)) := by
    simp only [process_layers, hblob, hkey, hsrc, if_pos hmedia]
  simp only [export_manifest_phase, hlayers,
    process_layers_append m.layer_sources b er pre (layer :: rest) bls hpre, hstep]
  simp

/-- Witness for C7: a two-layer manifest whose first layer is the
uncompressed OCI type and whose second is the gzip variant extracts only
the first blob and stops with the unsupported-layer-type error. -/
theorem export_unsupported_layer_aborts_witness :
    export_manifest_phase
        [{ config := [], repo_tags := [],
           layers := ["blobs/sha256/aa".data, "blobs/sha256/bb".data],
           layer_sources :=
             [("sha256:aa".data,
                { media_type := "application/vnd.oci.image.layer.v1.tar".data,
                  size := 1, digest := "sha256:aa".data }),
              ("sha256:bb".data,
                { media_type := "application/vnd.oci.image.layer.v1.tar+gzip".data,
                  size := 1, digest := "sha256:bb".data })] }]
        [("blobs/sha256/aa".data, [1]), ("blobs/sha256/bb".data, [2])]
        (fun _ => none) =
      ([], [[1]],
        some (.unsupportedLayerType "application/vnd.oci.image.layer.v1.tar+gzip".data)) :=
  export_unsupported_layer_aborts
    { config := [], repo_tags := [],
      layers := ["blobs/sha256/aa".data, "blobs/sha256/bb".data],
      layer_sources :=
        [("sha256:aa".data,
           { media_type := "application/vnd.oci.image.layer.v1.tar".data,
             size := 1, digest := "sha256:aa".data }),
         ("sha256:bb".data,
           { media_type := "application/vnd.oci.image.layer.v1.tar+gzip".data,
             size := 1, digest := "sha256:bb".data })] }
    [] [("blobs/sha256/aa".data, [1]), ("blobs/sha256/bb".data, [2])] (fun _ => none)
    ["blobs/sha256/aa".data] [] [[1]] "blobs/sha256/bb".data "sha256:bb".data [2]
    { media_type := "application/vnd.oci.image.layer.v1.tar+gzip".data,
      size := 1, digest := "sha256:bb".data }
    (by decide) (by decide) (by decide) (by decide) (by decide) (by decide)

/-- C9: the manifest phase yields the no-manifest error exactly when the
parsed `manifest.json` array is empty; with more than one entry it logs
the multiple-manifests warning and uses only the first entry's layers,
succeeding otherwise as usual. -/
theorem export_no_manifest_iff_empty :
    (∀ (b : List (List Char × List Nat)) (er : List Nat → Option (List Char)),
      export_manifest_phase [] b er = ([], [], some .noManifest)) ∧
    (∀ (m : DockerManifest) (ms : List DockerManifest)
      (b : List (List Char × List Nat)) (er : List Nat → Option (List Char)),
      (export_manifest_phase (m :: ms) b er).2.2 ≠ some .noManifest) ∧
    (∀ (m : DockerManifest) (ms : List DockerManifest)
      (b : List (List Char × List Nat)) (er : List Nat → Option (List Char)),
      export_manifest_phase (m :: ms) b er =
        ((if ms.isEmpty then [] else [ExportLog.multipleManifests]),
          (process_layers m.layer_sources b er m.layers).1,
          (process_layers m.layer_sources b er m.layers).2)) := by
  refine ⟨fun b er => rfl, ?_, fun m ms b er => rfl⟩
  intro m ms b er
  exact process_layers_snd_ne_noManifest m.layer_sources b er m.layers

/-- C6: per tar entry, `extract_archive` creates a regular-file entry at
the joined destination (truncating an existing file) with the header's
mode and bytes; creates a directory entry recursively with the header's
mode; turns a symlink or hardlink entry into a symbolic link to the
header's link name verbatim, removing an already-existing destination
first with an override log line; and logs a warning and continues without
error on any other entry type. -/
theorem extract_archive_entry_cases :
    (∀ (fuel : Nat) (dst_dir : FsPath) (fs : Fs) (e : TarEntry),
      e.etype = .regular →
      lookupAssoc fs (joinPath dst_dir e.path) = none →
      extract_archive (fuel + 1) dst_dir fs [e] =
        .ok (setFs fs (joinPath dst_dir e.path) (.file e.mode e.content), [])) ∧
    (∀ (fuel : Nat) (dst_dir : FsPath) (fs : Fs) (e : TarEntry) (m : Nat) (c : List Nat),
      e.etype = .regular →
      lookupAssoc fs (joinPath dst_dir e.path) = some (.file m c) →
      extract_archive (fuel + 1) dst_dir fs [e] =
        .ok (setFs fs (joinPath dst_dir e.path) (.file e.mode e.content), [])) ∧
    (∀ (fuel : Nat) (dst_dir : FsPath) (fs : Fs) (e : TarEntry),
      e.etype = .directory →
      lookupAssoc fs (joinPath dst_dir e.path) = none →
      extract_archive (fuel + 1) dst_dir fs [e] =
        .ok (setFs fs (joinPath dst_dir e.path) (.dir e.mode), [])) ∧
    (∀ (fuel : Nat) (dst_dir : FsPath) (fs : Fs) (e : TarEntry) (l : FsPath),
      (e.etype = .symlink ∨ e.etype = .link) →
      e.link_name = some l →
      lookupAssoc fs (joinPath dst_dir e.path) = none →
      extract_archive (fuel + 1) dst_dir fs [e] =
        .ok (setFs fs (joinPath dst_dir e.path) (.symlink l), [])) ∧
    (∀ (fuel : Nat) (dst_dir : FsPath) (fs : Fs) (e : TarEntry) (l : FsPath)
      (m : Nat) (c : List Nat),
      (e.etype = .symlink ∨ e.etype = .link) →
      e.link_name = some l →
      lookupAssoc fs (joinPath dst_dir e.path) = some (.file m c) →
      extract_archive (fuel + 1) dst_dir fs [e] =
        .ok (setFs (removeFs fs (joinPath dst_dir e.path)) (joinPath dst_dir e.path)
              (.symlink l),
          [.overrideSymlink (joinPath dst_dir e.path)])) ∧
    (∀ (fuel : Nat) (dst_dir : FsPath) (fs : Fs) (e : TarEntry) (tag : Nat)
      (rest : List TarEntry),
      e.etype = .other tag →
      extract_archive fuel dst_dir fs (e :: rest) =
        (extract_archive fuel dst_dir fs rest).map
          (fun r => (r.1, .skippingEntryType (joinPath dst_dir e.path) :: r.2))) := by
  refine ⟨?_, ?_, ?_, ?_, ?_, ?_⟩
  · intro fuel dst_dir fs e htype hlook
    simp [extract_archive, extract_entry, htype, fsCreateFile, resolvePath, hlook,
      fsSetMode, fsWriteContent, lookupAssoc_setFs, setFs_setFs]
  · intro fuel dst_dir fs e m c htype hlook
    simp [extract_archive, extract_entry, htype, fsCreateFile, resolvePath, hlook,
      fsSetMode, fsWriteContent, lookupAssoc_setFs, setFs_setFs]
  · intro fuel dst_dir fs e htype hlook
    simp [extract_archive, extract_entry, htype, fsCreateDirAll, fsSetPermissions,
      resolvePath, hlook, fsSetMode, lookupAssoc_setFs, setFs_setFs]
  · intro fuel dst_dir fs e l htype hlink hlook
    rcases htype with htype | htype <;>
      simp [extract_archive, extract_entry, htype, hlink, fsExists, resolvePath,
        hlook, fsSymlink]
  · intro fuel dst_dir fs e l m c htype hlink hlook
    rcases htype with htype | htype <;>
      simp [extract_archive, extract_entry, htype, hlink, fsExists, resolvePath,
        hlook, fsRemoveFile, fsSymlink, lookupAssoc_removeFs]
  · intro fuel dst_dir fs e tag rest htype
    cases hrest : extract_archive fuel dst_dir fs rest with
    | error err => simp [extract_archive, extract_entry, htype, hrest, Except.map]
    | ok r => simp [extract_archive, extract_entry, htype, hrest, Except.map]

/-- Witness for C6: each entry-type case instantiated on a small concrete
filesystem — a fresh regular file, a truncated existing file, a fresh
directory, a fresh symlink, a symlink overriding an existing file, and a
skipped FIFO-like entry type followed by a processed entry. -/
theorem extract_archive_entry_cases_witness :
    extract_archive 1 "/w".data []
        [{ etype := .regular, path := "a".data, mode := 420, link_name := none,
           content := [7] }] =
      .ok (setFs [] (joinPath "/w".data "a".data) (.file 420 [7]), []) ∧
    extract_archive 1 "/w".data [(joinPath "/w".data "a".data, .file 384 [9])]
        [{ etype := .regular, path := "a".data, mode := 420, link_name := none,
           content := [7] }] =
      .ok (setFs [(joinPath "/w".data "a".data, .file 384 [9])]
            (joinPath "/w".data "a".data) (.file 420 [7]), []) ∧
    extract_archive 1 "/w".data []
        [{ etype := .directory, path := "d".data, mode := 493, link_name := none,
           content := [] }] =
      .ok (setFs [] (joinPath "/w".data "d".data) (.dir 493), []) ∧
    extract_archive 1 "/w".data []
        [{ etype := .symlink, path := "s".data, mode := 511,
           link_name := some "../t".data, content := [] }] =
      .ok (setFs [] (joinPath "/w".data "s".data) (.symlink "../t".data), []) ∧
    extract_archive 1 "/w".data [(joinPath "/w".data "s".data, .file 420 [3])]
        [{ etype := .link, path := "s".data, mode := 511,
           link_name := some "../t".data, content := [] }] =
      .ok (setFs (removeFs [(joinPath "/w".data "s".data, .file 420 [3])]
              (joinPath "/w".data "s".data))
            (joinPath "/w".data "s".data) (.symlink "../t".data),
        [.overrideSymlink (joinPath "/w".data "s".data)]) ∧
    extract_archive 1 "/w".data []
        [{ etype := .other 54, path := "f".data, mode := 420, link_name := none,
           content := [] },
         { etype := .directory, path := "d".data, mode := 493, link_name := none,
           content := [] }] =
      (extract_archive 1 "/w".data []
          [{ etype := .directory, path := "d".data, mode := 493, link_name := none,
             content := [] }]).map
        (fun r => (r.1, .skippingEntryType (joinPath "/w".data "f".data) :: r.2)) :=
  ⟨extract_archive_entry_cases.1 0 "/w".data [] _ rfl rfl,
    extract_archive_entry_cases.2.1 0 "/w".data [(joinPath "/w".data "a".data, .file 384 [9])]
      _ 384 [9] rfl (by decide),
    extract_archive_entry_cases.2.2.1 0 "/w".data [] _ rfl rfl,
    extract_archive_entry_cases.2.2.2.1 0 "/w".data [] _ "../t".data (.inl rfl) rfl rfl,
    extract_archive_entry_cases.2.2.2.2.1 0 "/w".data
      [(joinPath "/w".data "s".data, .file 420 [3])] _ "../t".data 420 [3]
      (.inr rfl) rfl (by decide),
    extract_archive_entry_cases.2.2.2.2.2 1 "/w".data [] _ 54 _ rfl⟩

/-- C10: the remove-existing-destination step for a symlink or hardlink
entry keys on `Path::exists`, which follows symbolic links; a destination
occupied by a dangling symlink is therefore NOT removed and
`extract_archive` stops with the failed-to-symlink error leaving the
filesystem unchanged, while a destination symlink whose target exists IS
removed and overridden. -/
theorem extract_archive_dangling_symlink_dst :
    (∀ (fuel : Nat) (dst_dir : FsPath) (fs : Fs) (e : TarEntry) (l t : FsPath),
      (e.etype = .symlink ∨ e.etype = .link) →
      e.link_name = some l →
      lookupAssoc fs (joinPath dst_dir e.path) = some (.symlink t) →
      lookupAssoc fs t = none →
      extract_archive (fuel + 2) dst_dir fs [e] =
        .error (.failedToSymlink l (joinPath dst_dir e.path), fs)) ∧
    (∀ (fuel : Nat) (dst_dir : FsPath) (fs : Fs) (e : TarEntry) (l t : FsPath)
      (m : Nat) (c : List Nat),
      (e.etype = .symlink ∨ e.etype = .link) →
      e.link_name = some l →
      lookupAssoc fs (joinPath dst_dir e.path) = some (.symlink t) →
      lookupAssoc fs t = some (.file m c) →
      extract_archive (fuel + 2) dst_dir fs [e] =
        .ok (setFs (removeFs fs (joinPath dst_dir e.path)) (joinPath dst_dir e.path)
              (.symlink l),
          [.overrideSymlink (joinPath dst_dir e.path)])) := by
  constructor
  · intro fuel dst_dir fs e l t htype hlink hlook ht
    rcases htype with htype | htype <;>
      simp [extract_archive, extract_entry, htype, hlink, fsExists, resolvePath,
        hlook, ht, fsSymlink]
  · intro fuel dst_dir fs e l t m c htype hlink hlook ht
    rcases htype with htype | htype <;>
      simp [extract_archive, extract_entry, htype, hlink, fsExists, resolvePath,
        hlook, ht, fsRemoveFile, fsSymlink, lookupAssoc_removeFs]

/-- Witness for C10: over `fs = [("/w/s", symlink "/w/gone")]` a symlink
entry for `s` fails with the failed-to-symlink error and leaves the
dangling link in place, while with the target present the link is
replaced. -/
theorem extract_archive_dangling_symlink_dst_witness :
    extract_archive 2 "/w".data [(joinPath "/w".data "s".data, .symlink "/w/gone".data)]
        [{ etype := .symlink, path := "s".data, mode := 511,
           link_name := some "tgt".data, content := [] }] =
      .error (.failedToSymlink "tgt".data (joinPath "/w".data "s".data),
        [(joinPath "/w".data "s".data, .symlink "/w/gone".data)]) ∧
    extract_archive 2 "/w".data
        [(joinPath "/w".data "s".data, .symlink "/w/here".data),
         ("/w/here".data, .file 420 [5])]
        [{ etype := .symlink, path := "s".data, mode := 511,
           link_name := some "tgt".data, content := [] }] =
      .ok (setFs (removeFs
              [(joinPath "/w".data "s".data, .symlink "/w/here".data),
               ("/w/here".data, .file 420 [5])]
              (joinPath "/w".data "s".data))
            (joinPath "/w".data "s".data) (.symlink "tgt".data),
        [.overrideSymlink (joinPath "/w".data "s".data)]) :=
  ⟨extract_archive_dangling_symlink_dst.1 0 "/w".data
      [(joinPath "/w".data "s".data, .symlink "/w/gone".data)] _
      "tgt".data "/w/gone".data (.inl rfl) rfl (by decide) (by decide),
    extract_archive_dangling_symlink_dst.2 0 "/w".data
      [(joinPath "/w".data "s".data, .symlink "/w/here".data),
       ("/w/here".data, .file 420 [5])] _
      "tgt".data "/w/here".data 420 [5] (.inl rfl) rfl (by decide) (by decide)⟩

end RustDockerOverlay
